import Mathlib

/-!
Verification of the BadmintonAI analysis pipeline.

This file gives a shallow embedding, in Lean 4, of the pipeline steps of the
BadmintonAI repository (src/logic/steps/step0_clarification.py,
step1_enhancement.py, step2_code_gen.py, step3_execution.py,
step4_reflection.py, and the chat handler of src/main.py), and proves or
refutes the frozen claims about them.

Modelling conventions:
* Python strings are Lean `String`s; the Python string primitives used by the
  code (`strip`, `find`, `rfind`, slicing, the `in` substring test,
  `isdigit`, `int`) are reimplemented below with Python semantics
  (`find` returning -1, negative slice indices, and so on).
* The external reasoning service is an oracle: each stage receives the raw
  response text (or a response stream `Nat → String`) as an input.
* Executing untrusted generated code is an oracle as well: a `ProgSem`
  maps (program text, seeded dataset value) to an outcome, which either
  succeeds with captured stdout, final global bindings and the plotting
  registry contents, or raises.  Quantifying theorems over `ProgSem` makes
  them hold for every possible behaviour of generated code.
* The canonical pandas DataFrame is modelled as an `Obj`: an object identity
  (allocation id) together with its contents.  `df.copy()` allocates a fresh
  id drawn from a counter that is threaded through the pipeline, so "distinct
  object" claims become decidable statements about ids.
* Side effects that the claims quantify over (execution attempts with their
  seeded dataset copy, generator calls, the reflection call, the non-fatal
  warning) are recorded in an event trace.
-/

namespace BadmintonAI

/-! ## Python string primitives -/

/-- Python's default whitespace for `str.strip`. -/
def isPySpace (c : Char) : Bool :=
  c = ' ' || c = '\t' || c = '\n' || c = '\r' || c = '\x0b' || c = '\x0c'

/-- `str.strip()` on a character list. -/
def pyStripL (l : List Char) : List Char :=
  (((l.dropWhile isPySpace).reverse).dropWhile isPySpace).reverse

/-- Python `s.strip()`. -/
def pyStrip (s : String) : String := ⟨pyStripL s.data⟩

/-- First index at or after position `i` where `pat` occurs in `l`; `none` if absent.
An empty pattern matches at the end position, as in Python. -/
def findAux (pat : List Char) : List Char → Nat → Option Nat
  | [], i => if pat.isEmpty then some i else none
  | c :: rest, i =>
      if List.isPrefixOf pat (c :: rest) then some i else findAux pat rest (i + 1)

/-- Last index where `pat` occurs in `l`; `none` if absent. -/
def rfindAux (pat : List Char) : List Char → Nat → Option Nat → Option Nat
  | [], i, acc => if pat.isEmpty then some i else acc
  | c :: rest, i, acc =>
      rfindAux pat rest (i + 1) (if List.isPrefixOf pat (c :: rest) then some i else acc)

/-- Python `s.find(pat)`: index of the first occurrence, or -1. -/
def pyFind (s pat : String) : Int :=
  match findAux pat.data s.data 0 with
  | some i => (i : Int)
  | none => -1

/-- Python `s.find(pat, start)`: first occurrence at or after `start`, or -1. -/
def pyFindFrom (s pat : String) (start : Nat) : Int :=
  match findAux pat.data (s.data.drop start) 0 with
  | some i => (start + i : Nat)
  | none => -1

/-- Python `s.rfind(pat)`: index of the last occurrence, or -1. -/
def pyRFind (s pat : String) : Int :=
  match rfindAux pat.data s.data 0 none with
  | some i => (i : Int)
  | none => -1

/-- Python's substring test `pat in s`. -/
def pyContains (s pat : String) : Bool :=
  (findAux pat.data s.data 0).isSome

/-- Clamp a Python slice endpoint (negative indices count from the end). -/
def pyIdx (n : Nat) (i : Int) : Nat :=
  if i < 0 then (i + n).toNat else min i.toNat n

/-- Python slice `s[a:b]`. -/
def pySlice (s : String) (a b : Int) : String :=
  ⟨(s.data.take (pyIdx s.data.length b)).drop (pyIdx s.data.length a)⟩

/-- Python `s.isdigit()`, restricted to ASCII digits (the only digits the
chat handler can receive from its numeric-option protocol). -/
def pyIsDigit (s : String) : Bool :=
  !s.data.isEmpty && s.data.all Char.isDigit

/-- Python `int(s)` on a digit string (guarded by `isdigit` at every call site). -/
def pyToNat (s : String) : Nat :=
  s.data.foldl (fun acc c => acc * 10 + (c.toNat - 48)) 0

example : pyToNat "42" = 42 := by decide

/-- Python `s.startswith(pat)`. -/
def pyStartsWith (s pat : String) : Bool := List.isPrefixOf pat.data s.data

example : pyStrip "  hi \n" = "hi" := by decide
example : pyFind "abcabc" "bc" = 1 := by decide
example : pyRFind "abcabc" "bc" = 4 := by decide
example : pyFind "abc" "zz" = -1 := by decide
example : pySlice "hello" 1 (-1) = "ell" := by decide
example : pyContains "xx```pythonyy" "```python" = true := by decide
example : pyIsDigit " 2 " = false := by decide
example : pyIsDigit "42" = true := by decide

/-! ## Data model

`Obj` models a pandas DataFrame as object identity plus contents; `PyVal`
models the duck-typed Python values the Result Inspector classifies
(src/logic/steps/step4_reflection.py); `Outcome` is the result of `exec`-ing
an untrusted program. -/

/-- Abstract contents of the tabular dataset. -/
abbrev DataVal := List Int

/-- A heap object: an allocation id plus its current contents.  `df.copy()`
produces an `Obj` with the same contents and a fresh id. -/
structure Obj where
  oid : Nat
  val : DataVal
deriving DecidableEq, Repr

/-- The duck-typed Python values the summary classifier distinguishes:
class objects (`isinstance(val, type)`), scalars (`int`/`float`/`str`/`bool`,
kept by their rendering plus their truth value), DataFrames/Series (row
count), matplotlib figures, objects with `__len__`, and everything else.
`bool()` of a pandas frame raises in pandas; it is modelled as truthy here —
that branch (`if fig_var:` on a frame bound to the name `fig`) is exercised
by none of the verified claims. -/
inductive PyVal where
  | classVal : PyVal
  | scalar (r : String) (t : Bool) : PyVal
  | frame (rows : Nat) : PyVal
  | figure (num : Nat) : PyVal
  | seq (size : Nat) : PyVal
  | other (t : Bool) : PyVal
deriving DecidableEq, Repr

/-- Python truthiness of a modelled value. -/
def pyTruthy : PyVal → Bool
  | .classVal => true
  | .scalar _ t => t
  | .frame _ => true
  | .figure _ => true
  | .seq n => n ≠ 0
  | .other t => t

/-- Result of `exec`-ing a candidate program in a fresh sandbox namespace:
either success with the captured stdout, the final contents of
`exec_globals` (minus the `df` binding, which the inspector skips by name),
the final value of the program's dataset binding, and the matplotlib
registry contents (`plt.get_fignums()` after the run started from
`plt.close('all')`); or an exception with its message and whatever partial
bindings the failed `exec` left behind. -/
inductive Outcome where
  | ok (printed : String) (binds : List (String × PyVal)) (dfFinal : DataVal)
      (figs : List Nat) : Outcome
  | err (msg : String) (partialBinds : List (String × PyVal)) : Outcome
deriving DecidableEq, Repr

/-- `true` iff the execution raised. -/
def Outcome.raised : Outcome → Bool
  | .ok _ _ _ _ => false
  | .err _ _ => true

/-- Semantics of executing untrusted generated code: program text and the
seeded per-attempt dataset copy determine the outcome.  Theorems quantify
over this, so they hold for every behaviour of generated code, including
programs that mutate their dataset binding. -/
abbrev ProgSem := String → DataVal → Outcome

/-- The stream of reasoning-service responses to repair requests: the
`i`-th generator call in a repair loop receives response `client i`. -/
abbrev Client := Nat → String

/-- A role-tagged chat message of the generator conversation. -/
structure ChatMsg where
  role : String
  content : String
deriving DecidableEq, Repr

/-- Observable pipeline events: an execution attempt together with the
dataset copy seeded into its sandbox, a repair-generator call, the
reflection call, and the non-fatal warning of a failed corrective run. -/
inductive Ev where
  | execAttempt (seed : Obj) : Ev
  | genCall : Ev
  | reflectCall : Ev
  | warn : Ev
deriving DecidableEq, Repr

/-- Count of execution attempts in a trace. -/
def execCount (tr : List Ev) : Nat :=
  tr.countP fun e => match e with | .execAttempt _ => true | _ => false

/-- Count of repair-generator calls in a trace. -/
def genCount (tr : List Ev) : Nat :=
  tr.countP fun e => match e with | .genCall => true | _ => false

/-- Count of reflection calls in a trace. -/
def reflectCount (tr : List Ev) : Nat :=
  tr.countP fun e => match e with | .reflectCall => true | _ => false

/-! ## Sandbox Executor with bounded repair loop
(src/logic/steps/step3_execution.py, `execute_and_fix`) -/

/-- The error feedback appended to the generator conversation
(step3_execution.py line 66). -/
def errFeedback (e : String) : String :=
  "執行上述程式碼時發生錯誤: " ++ e ++ "。請修正錯誤並重新輸出完整程式碼 (包含必要的 import)。"

/-- The failing program echoed into the conversation as a fenced block
(step3_execution.py line 65). -/
def codeBlockMsg (code : String) : String := "```python\n" ++ code ++ "\n```"

/-- Fenced-program extraction shared by steps 2, 3 and 4:
`s[s.find("```python") + len("```python\n") : s.rfind("```")].strip()`. -/
def extractPyCode (s : String) : String :=
  pyStrip (pySlice s (pyFind s "```python" + 10) (pyRFind s "```"))

example : extractPyCode "x ```python\nprint(1)\n``` y" = "print(1)" := by decide

/-- Everything `execute_and_fix` returns, plus the event trace and the
allocation counter for dataset copies. -/
structure FixResult where
  success : Bool
  finalCode : String
  output : String
  globals : List (String × PyVal)
  figs : List Nat
  lastError : Option String
  conv : List ChatMsg
  trace : List Ev
  ctr : Nat
deriving DecidableEq, Repr

/-- The `while retry_count <= max_retries` loop of `execute_and_fix`
(step3_execution.py lines 33-76).  `budget` is the number of loop
iterations still permitted (`max_retries + 1 - retry_count`); each
iteration seeds `exec_globals` with a fresh copy of the canonical dataset
(`"df": df.copy()`, modelled by allocating id `ctr`), executes the
candidate, and on an exception appends the failing program and the error
to the conversation, requests a corrected program, and replaces the
candidate with the newly extracted program if the response carries a
fenced block. -/
def execFixLoop (run : ProgSem) (client : Client) (df : Obj) :
    Nat → String → List ChatMsg → Nat → Nat → Option String →
    List (String × PyVal) → List Ev → FixResult
  | 0, code, conv, _idx, ctr, lastErr, g, tr =>
      { success := false, finalCode := code, output := "", globals := g,
        figs := [], lastError := lastErr, conv := conv, trace := tr, ctr := ctr }
  | Nat.succ b, code, conv, idx, ctr, lastErr, _g, tr =>
      match run code df.val with
      | .ok out binds _dfF figs =>
          { success := true, finalCode := code, output := out, globals := binds,
            figs := figs, lastError := lastErr, conv := conv,
            trace := tr ++ [.execAttempt ⟨ctr, df.val⟩], ctr := ctr + 1 }
      | .err e pbinds =>
          execFixLoop run client df b
            (if pyContains (client idx) "```python" then extractPyCode (client idx) else code)
            (conv ++ [⟨"assistant", codeBlockMsg code⟩, ⟨"user", errFeedback e⟩])
            (idx + 1) (ctr + 1) (some e) pbinds
            (tr ++ [.execAttempt ⟨ctr, df.val⟩, .genCall])

/-- Step 3, `execute_and_fix`: `max_retries = 3` and the loop runs while
`retry_count <= max_retries`, so at most 4 iterations.  UI status updates
and debug logging are external effects outside the model. -/
def execute_and_fix (run : ProgSem) (client : Client) (code : String) (df : Obj)
    (conv : List ChatMsg) (ctr : Nat) : FixResult :=
  execFixLoop run client df 4 code conv 0 ctr none [] []

/-! ## Result Inspector & Reflector
(src/logic/steps/step4_reflection.py, `check_logic_and_fix`) -/

/-- A Summary Info value: bindings kept verbatim, the marker/descriptor
strings the inspector builds for tabular values, and the figure count. -/
inductive SVal where
  | verbatim (v : PyVal) : SVal
  | str (s : String) : SVal
  | nat (n : Nat) : SVal
deriving DecidableEq, Repr

/-- The names the inspector skips (step4_reflection.py lines 23 and 124). -/
def ignoreList : List String :=
  ["df", "pd", "st", "platform", "io", "fig", "np", "plt", "sns"]

/-- The distinguished empty marker (step4_reflection.py line 41). -/
def emptyMarker : String := "⚠️ Empty DataFrame/Series (0 rows)"

/-- The ordinary row-count descriptor (step4_reflection.py lines 43 and 130). -/
def rowsDescr (n : Nat) : String := "DataFrame/Series with " ++ toString n ++ " rows"

/-- Classification of one binding after the initial successful execution
(step4_reflection.py lines 35-45): class objects skipped, scalars kept
verbatim, a frame with `val.empty` mapped to the empty marker and otherwise
to the row-count descriptor, objects with `__len__ < 20` kept verbatim,
everything else dropped. -/
def classifyInit : PyVal → Option SVal
  | .classVal => none
  | .scalar r t => some (.verbatim (.scalar r t))
  | .frame n => if n = 0 then some (.str emptyMarker) else some (.str (rowsDescr n))
  | .figure _ => none
  | .seq k => if k < 20 then some (.verbatim (.seq k)) else none
  | .other _ => none

/-- Classification of one binding after the corrective re-execution
(step4_reflection.py lines 127-132).  This rebuild has no
`isinstance(val, type)` skip (class objects simply fall through every
branch, since they are neither scalars nor frames and have no `__len__`)
and, unlike `classifyInit`, no `val.empty` check: a zero-row frame gets the
row-count descriptor. -/
def classifyFix : PyVal → Option SVal
  | .classVal => none
  | .scalar r t => some (.verbatim (.scalar r t))
  | .frame n => some (.str (rowsDescr n))
  | .figure _ => none
  | .seq k => if k < 20 then some (.verbatim (.seq k)) else none
  | .other _ => none

/-- The variable scan of the inspector: walk `exec_globals.items()`, skip
names starting with an underscore or on the ignore list, and classify the
rest (`cls` is `classifyInit` or `classifyFix`). -/
def summarize (cls : PyVal → Option SVal) : List (String × PyVal) → List (String × SVal)
  | [] => []
  | p :: rest =>
      if pyStartsWith p.1 "_" || ignoreList.contains p.1 then summarize cls rest
      else
        match cls p.2 with
        | some s => (p.1, s) :: summarize cls rest
        | none => summarize cls rest

/-- `created_figs` of the initial inspection (step4_reflection.py lines
26-28): the matplotlib registry contents, or the `fig` binding if the
registry is empty and the name exists. -/
def createdFigures (binds : List (String × PyVal)) (figRegistry : List Nat) : List PyVal :=
  let raw := figRegistry.map PyVal.figure
  if raw.isEmpty then
    match List.lookup "fig" binds with
    | some v => [v]
    | none => []
  else raw

/-- Summary Info after the initial successful execution: the figure count
entry is inserted first (line 30), then the variable scan. -/
def initialSummary (binds : List (String × PyVal)) (figRegistry : List Nat) :
    List (String × SVal) :=
  ("_generated_figures_count", SVal.nat (createdFigures binds figRegistry).length)
    :: summarize classifyInit binds

/-- `final_figs` after a successful corrective run (step4_reflection.py
lines 134-138): registry contents, else the `fig` binding if present and
truthy. -/
def correctedFigures (binds : List (String × PyVal)) (figRegistry : List Nat) : List PyVal :=
  let raw := figRegistry.map PyVal.figure
  if raw.isEmpty then
    match List.lookup "fig" binds with
    | some v => if pyTruthy v then [v] else []
    | none => []
  else raw

/-- What `check_logic_and_fix` returns, plus the event trace and the
allocation counter. -/
structure ReflResult where
  finalCode : String
  output : String
  summary : List (String × SVal)
  figs : List PyVal
  trace : List Ev
  ctr : Nat
deriving DecidableEq, Repr

/-- Step 4, `check_logic_and_fix`: digest the successful execution into
Summary Info, issue one reflection call (`reflResp` is the audit channel's
response; the prompt text it was given is an external effect), and if the
response is not a PASS sentinel and carries a fenced program, execute the
corrected program exactly once against a fresh dataset copy.  If that
single corrective run raises, fall back to the pre-correction result and
surface a warning (step4_reflection.py lines 98-152). -/
def check_logic_and_fix (run : ProgSem) (reflResp : String) (code output : String)
    (binds : List (String × PyVal)) (figRegistry : List Nat) (df : Obj) (ctr : Nat) :
    ReflResult :=
  if !(pyContains (pyStrip reflResp) "PASS") &&
      pyContains (pyStrip reflResp) "```python" then
    match run (extractPyCode (pyStrip reflResp)) df.val with
    | .ok out2 binds2 _dfF figs2 =>
        { finalCode := extractPyCode (pyStrip reflResp), output := out2,
          summary := summarize classifyFix binds2 ++
            [("_generated_figures_count", SVal.nat (correctedFigures binds2 figs2).length)],
          figs := correctedFigures binds2 figs2,
          trace := [.reflectCall, .execAttempt ⟨ctr, df.val⟩], ctr := ctr + 1 }
    | .err _e _p =>
        { finalCode := code, output := output,
          summary := initialSummary binds figRegistry,
          figs := createdFigures binds figRegistry,
          trace := [.reflectCall, .execAttempt ⟨ctr, df.val⟩, .warn], ctr := ctr + 1 }
  else
    { finalCode := code, output := output,
      summary := initialSummary binds figRegistry,
      figs := createdFigures binds figRegistry,
      trace := [.reflectCall], ctr := ctr }

/-! ## Per-turn composition of executor and reflector
(src/logic/analysis_flow.py lines 80-92: step 4 runs only when step 3
succeeded, on the same canonical dataset). -/

/-- Execution phase of one turn: the repair loop, then — only on success —
the reflection pass. -/
def runTurn (run : ProgSem) (client : Client) (reflResp : String) (code : String)
    (df : Obj) (conv : List ChatMsg) (ctr : Nat) : FixResult × Option ReflResult :=
  if (execute_and_fix run client code df conv ctr).success then
    (execute_and_fix run client code df conv ctr,
      some (check_logic_and_fix run reflResp
        (execute_and_fix run client code df conv ctr).finalCode
        (execute_and_fix run client code df conv ctr).output
        (execute_and_fix run client code df conv ctr).globals
        (execute_and_fix run client code df conv ctr).figs
        df (execute_and_fix run client code df conv ctr).ctr))
  else
    (execute_and_fix run client code df conv ctr, none)

/-- All events of one turn's execution phase. -/
def turnTrace : FixResult × Option ReflResult → List Ev
  | (r, some s) => r.trace ++ s.trace
  | (r, none) => r.trace

/-! ## Clarification Gate
(src/logic/steps/step0_clarification.py, `check_clarification`) -/

/-- The parsed clarification payload: `json.loads` output restricted to the
fields the gate reads (`need_clarification` truthiness, the question and the
option list). -/
structure ClarifData where
  needClarification : Bool
  question : String
  options : List String
deriving DecidableEq, Repr

/-- JSON-block extraction of the gate (step0_clarification.py lines 47-55):
prefer a ` ```json `-fenced block, then any fenced block, both delimited by
`find` with a start offset; otherwise the raw content. -/
def extractJsonBlock (content : String) : String :=
  if pyContains content "```json" then
    let s : Int := pyFind content "```json" + 7
    pyStrip (pySlice content s (pyFindFrom content "```" s.toNat))
  else if pyContains content "```" then
    let s : Int := pyFind content "```" + 3
    pyStrip (pySlice content s (pyFindFrom content "```" s.toNat))
  else content

/-- Step 0, `check_clarification`.  `jloads` models `json.loads` plus the
`.get` accesses (`none` covers both invalid JSON and a non-dict result);
`resp` is the judgment call's response.  Returns the payload (or `none`
for CLEAR) together with the number of reasoning-service calls made; the
schema summary only feeds the external prompt text and is not modelled. -/
def check_clarification (jloads : String → Option ClarifData) (resp : String)
    (prompt : String) (enable : Bool) : Option ClarifData × Nat :=
  if !enable then (none, 0)
  else if pyContains prompt "補充說明:" then (none, 0)
  else
    let content := pyStrip resp
    if !(pyContains content "CLEAR") then
      match jloads (extractJsonBlock content) with
      | some d => if d.needClarification then (some d, 1) else (none, 1)
      | none => (none, 1)
    else (none, 1)

/-! ## Prompt Enhancer
(src/logic/steps/step1_enhancement.py, `enhance_prompt`) -/

/-- The parsed enhancement payload: the three `.get` accesses, each possibly
absent. -/
structure EnhParsed where
  enhancedPrompt : Option String
  relevantTopics : Option (List String)
  needsCourtInfo : Option Bool
deriving DecidableEq, Repr

/-- Markdown stripping of the enhancer (step1_enhancement.py lines 50-58).
Unlike the gate's `extractJsonBlock`, the closing delimiter is found with
`rfind`. -/
def extractJsonBlockEnh (raw : String) : String :=
  if pyContains raw "```json" then
    pyStrip (pySlice raw (pyFind raw "```json" + 7) (pyRFind raw "```"))
  else if pyContains raw "```" then
    pyStrip (pySlice raw (pyFind raw "```" + 3) (pyRFind raw "```"))
  else raw

/-- Spatial-topic keywords of the fallback heuristic (line 69). -/
def spatialKeywords : List String :=
  ["落點", "位置", "區域", "座標", "location", "area", "distance"]

/-- Score-topic keywords of the fallback heuristic (line 72). -/
def scoreKeywords : List String :=
  ["得分", "失分", "原因", "reason", "score"]

/-- Step 1, `enhance_prompt`: parse the model's structured response; on
success take the three fields with their defaults, on parse failure echo
the raw response as the enhanced prompt and fall back to keyword heuristics
over the user's question, with the full tag set when nothing matches.
Returns `(enhanced_prompt, relevant_topics, needs_court_info, raw_content)`;
the function is total, so it models "never raises". -/
def enhance_prompt (jloads : String → Option EnhParsed) (resp : String)
    (prompt : String) : String × List String × Bool × String :=
  let rawContent := pyStrip resp
  match jloads (extractJsonBlockEnh rawContent) with
  | some p =>
      (p.enhancedPrompt.getD rawContent, p.relevantTopics.getD ["spatial", "score"],
        p.needsCourtInfo.getD false, rawContent)
  | none =>
      let hasSpatial := spatialKeywords.any fun k => pyContains prompt k
      let hasScore := scoreKeywords.any fun k => pyContains prompt k
      let t := (if hasSpatial then ["spatial"] else []) ++
        (if hasScore then ["score"] else [])
      let topics := if t.isEmpty then ["spatial", "score"] else t
      (rawContent, topics, hasSpatial, rawContent)

/-! ## Code Generator: conversation-history window
(src/logic/steps/step2_code_gen.py, `generate_code` lines 36-48) -/

/-- A persisted session message: role, text content and the optional
`tracked` flag (`m.get("tracked", True)` when absent). -/
structure SMsg where
  role : String
  content : String
  tracked : Option Bool
deriving DecidableEq, Repr

/-- `m.get("tracked", True)`. -/
def smTracked (m : SMsg) : Bool := m.tracked.getD true

/-- `m.get("content") and "🤔" not in m.get("content", "")`. -/
def smKeep (m : SMsg) : Bool :=
  !(m.content == "") && !(pyContains m.content "🤔")

/-- The projection inserted into the history
(`{"role": m["role"], "content": m["content"]}`). -/
def toChat (m : SMsg) : ChatMsg := ⟨m.role, m.content⟩

/-- The backward scan of `generate_code` (lines 39-44) on the reversed
prior messages: stop at the first untracked message, keep the projections
of the messages that pass the content filter.  The result is in
reverse-chronological order (the Python loop undoes this via `insert(0, ·)`). -/
def historyScan : List SMsg → List ChatMsg
  | [] => []
  | m :: rest =>
      if !(smTracked m) then []
      else if smKeep m then toChat m :: historyScan rest
      else historyScan rest

/-- Python `l[-n:]`. -/
def lastSlice (n : Nat) (l : List α) : List α := l.drop (l.length - n)

/-- The history portion of the code-generation conversation: when history
is on and there is a prior message, scan `st.session_state.messages[:-1]`
backward and keep the last 8 surviving messages
(`valid_history[-8:]`, line 47). -/
def recentHistory (useHistory : Bool) (msgs : List SMsg) : List ChatMsg :=
  if useHistory && decide (1 < msgs.length) then
    lastSlice 8 (historyScan msgs.dropLast.reverse).reverse
  else []

/-- Spec-side formulation of the tracking boundary: the messages strictly
after the most recent message whose tracked flag is false. -/
def afterTrackingBoundary (l : List SMsg) : List SMsg :=
  (l.reverse.takeWhile smTracked).reverse

/-! ## Schema Selector -/

/-- Topic of a schema-corpus column descriptor. -/
inductive Topic where
  | core : Topic
  | spatial : Topic
  | scoreT : Topic
deriving DecidableEq, Repr

/-- A schema-corpus column descriptor: a column name and its rendered
definition text. -/
structure Descriptor where
  name : String
  text : String
deriving DecidableEq, Repr

/-- Whether a descriptor survives the topic filter: core descriptors
unconditionally, spatial/score descriptors iff the tag is present. -/
def keepDescriptor (classify : Descriptor → Topic) (tags : List String)
    (d : Descriptor) : Bool :=
  match classify d with
  | .core => true
  | .spatial => tags.contains "spatial"
  | .scoreT => tags.contains "score"

/-- The descriptor texts that survive the topic filter, in corpus order. -/
def filteredTexts (classify : Descriptor → Topic) (tags : List String) :
    List Descriptor → List String
  | [] => []
  | d :: rest =>
      if keepDescriptor classify tags d then d.text :: filteredTexts classify tags rest
      else filteredTexts classify tags rest

/-- Modelled from the spec: `get_filtered_schema_string` is imported by the
Code Generator (src/logic/steps/step2_code_gen.py line 3) from
`utils.data_loader`, but no definition of it exists in the sources.  Spec
§4.3: the filtered schema text consists of all "core" descriptors
unconditionally, plus "spatial" descriptors iff the tag is present, plus
"score" descriptors iff the tag is present; the classification of a
descriptor by fixed keyword-substring match against its name is abstracted
as the `classify` parameter, since the spec fixes no keyword list. -/
def get_filtered_schema_string (classify : Descriptor → Topic)
    (topicTags : List String) (corpus : List Descriptor) : String :=
  String.intercalate "\n" (filteredTexts classify topicTags corpus)

/-! ## Chat handler for a resumed clarification
(src/main.py lines 89-123; src/front_page.py lines 220-252 is the same
logic) -/

/-- The session-state fields the handler touches. -/
structure SessionSt where
  awaiting : Bool
  clarifData : Option ClarifData
  originalPrompt : String
  messages : List SMsg
deriving DecidableEq, Repr

/-- `f"{original_prompt}\n補充說明: {user_answer}"`. -/
def supplementMerge (orig answer : String) : String :=
  orig ++ "\n補充說明: " ++ answer

/-- Option-number resolution (main.py lines 97-100): if the stripped reply
is a digit string and a payload is present, and the 1-based number is in
range, replace it with the corresponding option text. -/
def resolveAnswer (data : Option ClarifData) (ua : String) : String :=
  match data with
  | some d =>
      if pyIsDigit ua then
        let idx : Int := (pyToNat ua : Int) - 1
        if 0 ≤ idx ∧ idx < (d.options.length : Int) then d.options.getD idx.toNat ""
        else ua
      else ua
  | none => ua

/-- The chat handler's prompt preprocessing (main.py lines 89-123): while
awaiting clarification, resolve the reply, merge it with the original
prompt under the supplement marker, append the raw reply to the session
messages (with no `tracked` key), and clear the awaiting flag and payload;
otherwise append the question with `tracked = use_history` and pass it
through.  Returns the prompt that re-enters the pipeline and the updated
session state. -/
def handle_chat_prompt (useHistory : Bool) (s : SessionSt) (prompt : String) :
    String × SessionSt :=
  if s.awaiting then
    let ua := resolveAnswer s.clarifData (pyStrip prompt)
    (supplementMerge s.originalPrompt ua,
      { awaiting := false, clarifData := none, originalPrompt := s.originalPrompt,
        messages := s.messages ++ [⟨"user", prompt, none⟩] })
  else
    (prompt,
      { awaiting := s.awaiting, clarifData := s.clarifData,
        originalPrompt := s.originalPrompt,
        messages := s.messages ++ [⟨"user", prompt, some useHistory⟩] })

/-! ## Trace-counting helpers -/

theorem execCount_append (a b : List Ev) :
    execCount (a ++ b) = execCount a + execCount b :=
  List.countP_append _ a b

theorem genCount_append (a b : List Ev) :
    genCount (a ++ b) = genCount a + genCount b :=
  List.countP_append _ a b

/-! ## Sandbox Executor: repair-loop lemmas -/

/-- When every execution raises, each of the 4 permitted loop iterations
performs one execution and one generator call, and the loop ends
unsuccessfully holding the last error. -/
theorem execFixLoop_allErr (run : ProgSem) (client : Client) (df : Obj)
    (h : ∀ c d, (run c d).raised = true) :
    ∀ (b : Nat) (code : String) (conv : List ChatMsg) (idx ctr : Nat)
      (le : Option String) (g : List (String × PyVal)) (tr : List Ev),
      (execFixLoop run client df b code conv idx ctr le g tr).success = false ∧
      execCount (execFixLoop run client df b code conv idx ctr le g tr).trace
        = execCount tr + b ∧
      genCount (execFixLoop run client df b code conv idx ctr le g tr).trace
        = genCount tr + b ∧
      ((le.isSome = true ∨ 0 < b) →
        (execFixLoop run client df b code conv idx ctr le g tr).lastError.isSome
          = true) := by
  intro b
  induction b with
  | zero =>
      intro code conv idx ctr le g tr
      refine ⟨rfl, by simp [execFixLoop], by simp [execFixLoop], ?_⟩
      rintro (hle | hb)
      · exact hle
      · exact absurd hb (by omega)
  | succ n ih =>
      intro code conv idx ctr le g tr
      have hre := h code df.val
      unfold execFixLoop
      cases hrun : run code df.val with
      | ok out binds dfF figs =>
          rw [hrun] at hre
          simp [Outcome.raised] at hre
      | err e p =>
          simp only
          obtain ⟨h1, h2, h3, h4⟩ := ih
            (if pyContains (client idx) "```python" then extractPyCode (client idx)
              else code)
            (conv ++ [⟨"assistant", codeBlockMsg code⟩, ⟨"user", errFeedback e⟩])
            (idx + 1) (ctr + 1) (some e) p
            (tr ++ [.execAttempt ⟨ctr, df.val⟩, .genCall])
          refine ⟨h1, ?_, ?_, fun _ => h4 (Or.inl rfl)⟩
          · rw [h2, execCount_append]
            have hc : execCount [Ev.execAttempt ⟨ctr, df.val⟩, Ev.genCall] = 1 := rfl
            omega
          · rw [h3, genCount_append]
            have hc : genCount [Ev.execAttempt ⟨ctr, df.val⟩, Ev.genCall] = 1 := rfl
            omega

/-- Sample dataset object for concrete witnesses. -/
def dfA : Obj := ⟨0, [1, 2, 3]⟩

/-- A candidate whose every execution raises. -/
def runBoom : ProgSem := fun _ _ => .err "NameError: name foo is not defined" []

/-- A repair response stream carrying a fenced correction. -/
def clientFix : Client := fun _ => "try this ```python\nfixed = 1\n```"

/-- C1, counterexample: with a candidate that raises on every attempt, the
repair loop of `execute_and_fix` calls the code generator 4 times, not at
most 3 — the loop body requests a corrected program after every failed
execution, including the fourth and last one. -/
theorem repair_loop_four_generator_calls :
    genCount (execute_and_fix runBoom clientFix "broken" dfA [] 1).trace = 4 ∧
    ¬ (genCount (execute_and_fix runBoom clientFix "broken" dfA [] 1).trace ≤ 3) := by
  refine ⟨by decide, by decide⟩

/-- C1 (amended): for every candidate program that raises on each execution
attempt, `execute_and_fix` performs exactly 1 initial execution plus 3
repair re-executions, calls the code generator once per failed execution —
hence 4 times, the last corrected candidate being returned unexecuted —
and terminates unsuccessfully with the last error. -/
theorem repair_loop_budget (run : ProgSem) (client : Client) (code : String)
    (df : Obj) (conv : List ChatMsg) (ctr : Nat)
    (h : ∀ c d, (run c d).raised = true) :
    (execute_and_fix run client code df conv ctr).success = false ∧
    execCount (execute_and_fix run client code df conv ctr).trace = 4 ∧
    genCount (execute_and_fix run client code df conv ctr).trace = 4 ∧
    (execute_and_fix run client code df conv ctr).lastError.isSome = true := by
  obtain ⟨h1, h2, h3, h4⟩ :=
    execFixLoop_allErr run client df h 4 code conv 0 ctr none [] []
  exact ⟨h1, by simpa [execCount] using h2, by simpa [genCount] using h3,
    h4 (Or.inr (by omega))⟩

/-- C1, witness: the amended bound evaluated on a concrete always-raising
candidate. -/
theorem repair_loop_budget_witness :
    (execute_and_fix runBoom clientFix "broken" dfA [] 1).success = false ∧
    execCount (execute_and_fix runBoom clientFix "broken" dfA [] 1).trace = 4 ∧
    genCount (execute_and_fix runBoom clientFix "broken" dfA [] 1).trace = 4 ∧
    (execute_and_fix runBoom clientFix "broken" dfA [] 1).lastError.isSome = true :=
  repair_loop_budget runBoom clientFix "broken" dfA [] 1 (fun _ _ => rfl)

/-! ## Isolation of dataset copies -/

/-- The allocation counter never decreases through the repair loop. -/
theorem execFixLoop_ctr_mono (run : ProgSem) (client : Client) (df : Obj) :
    ∀ (b : Nat) (code : String) (conv : List ChatMsg) (idx ctr : Nat)
      (le : Option String) (g : List (String × PyVal)) (tr : List Ev),
      ctr ≤ (execFixLoop run client df b code conv idx ctr le g tr).ctr := by
  intro b
  induction b with
  | zero => intro code conv idx ctr le g tr; exact le_refl ctr
  | succ n ih =>
      intro code conv idx ctr le g tr
      unfold execFixLoop
      cases hrun : run code df.val with
      | ok out binds dfF figs => simp
      | err e p =>
          simp only
          exact le_trans (Nat.le_succ ctr) (ih _ _ (idx + 1) (ctr + 1) (some e) p _)

/-- Every event the repair loop adds to the trace is either a generator
call or an execution attempt seeded with a fresh copy of the canonical
dataset, allocated at or above the incoming counter. -/
theorem execFixLoop_trace_mem (run : ProgSem) (client : Client) (df : Obj) :
    ∀ (b : Nat) (code : String) (conv : List ChatMsg) (idx ctr : Nat)
      (le : Option String) (g : List (String × PyVal)) (tr : List Ev) (e : Ev),
      e ∈ (execFixLoop run client df b code conv idx ctr le g tr).trace →
      e ∈ tr ∨ e = .genCall ∨ ∃ k, ctr ≤ k ∧ e = .execAttempt ⟨k, df.val⟩ := by
  intro b
  induction b with
  | zero =>
      intro code conv idx ctr le g tr e he
      exact Or.inl he
  | succ n ih =>
      intro code conv idx ctr le g tr e he
      rw [execFixLoop] at he
      revert he
      cases hrun : run code df.val with
      | ok out binds dfF figs =>
          intro he
          simp only [List.mem_append, List.mem_singleton] at he
          rcases he with he | he
          · exact Or.inl he
          · exact Or.inr (Or.inr ⟨ctr, le_refl ctr, he⟩)
      | err ev p =>
          intro he
          rcases ih _ _ (idx + 1) (ctr + 1) (some ev) p
              (tr ++ [.execAttempt ⟨ctr, df.val⟩, .genCall]) e he with
            h | h | ⟨k, hk, hkk⟩
          · simp only [List.mem_append, List.mem_cons, List.mem_singleton,
              List.not_mem_nil, or_false] at h
            rcases h with h | h | h
            · exact Or.inl h
            · exact Or.inr (Or.inr ⟨ctr, le_refl ctr, h⟩)
            · exact Or.inr (Or.inl h)
          · exact Or.inr (Or.inl h)
          · exact Or.inr (Or.inr ⟨k, by omega, hkk⟩)

/-- Every event of the reflection pass is the reflection call, the warning,
or the single corrective execution attempt seeded with a fresh copy of the
canonical dataset allocated at the incoming counter. -/
theorem check_logic_trace_mem (run : ProgSem) (reflResp code output : String)
    (binds : List (String × PyVal)) (figRegistry : List Nat) (df : Obj) (ctr : Nat)
    (e : Ev)
    (he : e ∈ (check_logic_and_fix run reflResp code output binds figRegistry
      df ctr).trace) :
    e = .reflectCall ∨ e = .warn ∨ e = .execAttempt ⟨ctr, df.val⟩ := by
  revert he
  unfold check_logic_and_fix
  split
  · cases hrun : run (extractPyCode (pyStrip reflResp)) df.val with
    | ok out2 binds2 dfF figs2 =>
        intro he
        simp only [List.mem_cons, List.mem_singleton, List.not_mem_nil, or_false] at he
        rcases he with he | he
        · exact Or.inl he
        · exact Or.inr (Or.inr he)
    | err ev p =>
        intro he
        simp only [List.mem_cons, List.mem_singleton, List.not_mem_nil, or_false] at he
        rcases he with he | he | he
        · exact Or.inl he
        · exact Or.inr (Or.inr he)
        · exact Or.inr (Or.inl he)
  · intro he
    simp only [List.mem_singleton] at he
    exact Or.inl he

/-- C2: every execution attempt of a turn — the initial run, every repair
retry, and the single reflection-triggered corrective run — seeds the
sandbox with a dataset copy whose contents equal the canonical dataset's
contents (so no mutation of a previous attempt ever leaks into a later
attempt, and the canonical value is never rebound) and whose object id
differs from the canonical dataset's id, for every possible behaviour of
the generated programs. -/
theorem attempt_dataset_isolation (run : ProgSem) (client : Client)
    (reflResp code : String) (df : Obj) (conv : List ChatMsg) (ctr : Nat)
    (hctr : df.oid < ctr) (seed : Obj)
    (hmem : Ev.execAttempt seed ∈
      turnTrace (runTurn run client reflResp code df conv ctr)) :
    seed.val = df.val ∧ seed.oid ≠ df.oid := by
  revert hmem
  unfold runTurn
  split
  · simp only [turnTrace]
    intro hmem
    rw [List.mem_append] at hmem
    rcases hmem with hmem | hmem
    · rcases execFixLoop_trace_mem run client df 4 code conv 0 ctr none [] []
          (Ev.execAttempt seed) hmem with h | h | ⟨k, hk, hkk⟩
      · simp at h
      · simp at h
      · obtain rfl : seed = ⟨k, df.val⟩ := by injection hkk
        exact ⟨rfl, by simp; omega⟩
    · have hc : ctr ≤ (execute_and_fix run client code df conv ctr).ctr :=
        execFixLoop_ctr_mono run client df 4 code conv 0 ctr none [] []
      rcases check_logic_trace_mem run reflResp _ _ _ _ df _ (Ev.execAttempt seed)
          hmem with h | h | h
      · simp at h
      · simp at h
      · obtain rfl : seed = ⟨(execute_and_fix run client code df conv ctr).ctr, df.val⟩ :=
          by injection h
        exact ⟨rfl, by simp; omega⟩
  · simp only [turnTrace]
    intro hmem
    rcases execFixLoop_trace_mem run client df 4 code conv 0 ctr none [] []
        (Ev.execAttempt seed) hmem with h | h | ⟨k, hk, hkk⟩
    · simp at h
    · simp at h
    · obtain rfl : seed = ⟨k, df.val⟩ := by injection hkk
      exact ⟨rfl, by simp; omega⟩

/-- A program that succeeds immediately, mutating its dataset binding. -/
def runMutate : ProgSem := fun _ d => .ok "done" [("res", .frame 2)] (0 :: d) [1]

/-- C2, witness: the isolation property evaluated on a concrete turn whose
program mutates its dataset copy. -/
theorem attempt_dataset_isolation_witness :
    (⟨1, [1, 2, 3]⟩ : Obj).val = dfA.val ∧ (⟨1, [1, 2, 3]⟩ : Obj).oid ≠ dfA.oid :=
  attempt_dataset_isolation runMutate clientFix "PASS" "code" dfA [] 1
    (by decide) ⟨1, [1, 2, 3]⟩ (by decide)

/-! ## Reflection pass: single correction and fallback -/

/-- C5: the reflection stage issues exactly one audit call, never calls the
repair generator, and performs at most one corrective re-execution — exactly
one when the response is not a PASS sentinel and carries a fenced program —
with no nested repair loop, whatever the corrected program does. -/
theorem reflection_single_correction (run : ProgSem) (reflResp code output : String)
    (binds : List (String × PyVal)) (figRegistry : List Nat) (df : Obj) (ctr : Nat) :
    execCount (check_logic_and_fix run reflResp code output binds figRegistry
      df ctr).trace ≤ 1 ∧
    genCount (check_logic_and_fix run reflResp code output binds figRegistry
      df ctr).trace = 0 ∧
    reflectCount (check_logic_and_fix run reflResp code output binds figRegistry
      df ctr).trace = 1 ∧
    ((pyContains (pyStrip reflResp) "PASS" = false ∧
        pyContains (pyStrip reflResp) "```python" = true) →
      execCount (check_logic_and_fix run reflResp code output binds figRegistry
        df ctr).trace = 1) := by
  unfold check_logic_and_fix
  split
  · split
    · exact ⟨Nat.le_of_eq rfl, rfl, rfl, fun _ => rfl⟩
    · exact ⟨Nat.le_of_eq rfl, rfl, rfl, fun _ => rfl⟩
  · rename_i hcond
    refine ⟨Nat.zero_le _, rfl, rfl, fun hc => ?_⟩
    rw [hc.1, hc.2] at hcond
    simp at hcond

/-- C5, witness: a non-PASS response with a fenced program on a program that
raises again still yields exactly one corrective execution, no generator
call, one reflection call. -/
theorem reflection_single_correction_witness :
    execCount (check_logic_and_fix runBoom "flawed ```python\nz = 1\n```" "c" "o"
      [] [] dfA 1).trace = 1 ∧
    genCount (check_logic_and_fix runBoom "flawed ```python\nz = 1\n```" "c" "o"
      [] [] dfA 1).trace = 0 ∧
    reflectCount (check_logic_and_fix runBoom "flawed ```python\nz = 1\n```" "c" "o"
      [] [] dfA 1).trace = 1 :=
  have h := reflection_single_correction runBoom "flawed ```python\nz = 1\n```" "c" "o"
    [] [] dfA 1
  ⟨h.2.2.2 ⟨by decide, by decide⟩, h.2.1, h.2.2.1⟩

/-- C6: if the single reflection-triggered corrective run raises, the stage
returns the pre-correction result unchanged — the original code, the
original captured output, the original Summary Info and the originally
created figures — and the trace carries the visible non-fatal warning. -/
theorem reflection_failure_fallback (run : ProgSem) (reflResp code output : String)
    (binds : List (String × PyVal)) (figRegistry : List Nat) (df : Obj) (ctr : Nat)
    (e : String) (p : List (String × PyVal))
    (h1 : pyContains (pyStrip reflResp) "PASS" = false)
    (h2 : pyContains (pyStrip reflResp) "```python" = true)
    (h3 : run (extractPyCode (pyStrip reflResp)) df.val = .err e p) :
    check_logic_and_fix run reflResp code output binds figRegistry df ctr =
      { finalCode := code, output := output,
        summary := initialSummary binds figRegistry,
        figs := createdFigures binds figRegistry,
        trace := [.reflectCall, .execAttempt ⟨ctr, df.val⟩, .warn],
        ctr := ctr + 1 } := by
  unfold check_logic_and_fix
  rw [h1, h2, h3]
  exact rfl

/-- C6, witness: the fallback evaluated on a concrete failing corrective run. -/
theorem reflection_failure_fallback_witness :
    check_logic_and_fix runBoom "flawed ```python\nbad()\n```" "orig" "out"
      [("res", PyVal.frame 3)] [1] dfA 5 =
      { finalCode := "orig", output := "out",
        summary := initialSummary [("res", PyVal.frame 3)] [1],
        figs := createdFigures [("res", PyVal.frame 3)] [1],
        trace := [.reflectCall, .execAttempt ⟨5, dfA.val⟩, .warn],
        ctr := 6 } :=
  reflection_failure_fallback runBoom "flawed ```python\nbad()\n```" "orig" "out"
    [("res", PyVal.frame 3)] [1] dfA 5 "NameError: name foo is not defined" []
    (by decide) (by decide) rfl

/-! ## Summary Info classification lemmas -/

/-- One step of the inspector's variable scan, as a `filterMap` step. -/
def summaryStep (cls : PyVal → Option SVal) (p : String × PyVal) :
    Option (String × SVal) :=
  if pyStartsWith p.1 "_" || ignoreList.contains p.1 then none
  else (cls p.2).map fun s => (p.1, s)

theorem summarize_eq_filterMap (cls : PyVal → Option SVal)
    (binds : List (String × PyVal)) :
    summarize cls binds = binds.filterMap (summaryStep cls) := by
  induction binds with
  | nil => rfl
  | cons p rest ih =>
      rw [summarize, List.filterMap_cons]
      simp only [summaryStep]
      by_cases hc : (pyStartsWith p.1 "_" || ignoreList.contains p.1) = true
      · rw [if_pos hc, if_pos hc]
        simpa using ih
      · rw [if_neg hc, if_neg hc]
        cases hv : cls p.2 <;> simp [hv, ih]

/-- Membership in the scan result, forward direction. -/
theorem summarize_mem_of (cls : PyVal → Option SVal) (binds : List (String × PyVal))
    (n : String) (v : PyVal) (s : SVal) (hmem : (n, v) ∈ binds)
    (h1 : pyStartsWith n "_" = false) (h2 : ignoreList.contains n = false)
    (hv : cls v = some s) : (n, s) ∈ summarize cls binds := by
  rw [summarize_eq_filterMap, List.mem_filterMap]
  refine ⟨(n, v), hmem, ?_⟩
  simp only [summaryStep]
  rw [if_neg (by rw [h1, h2]; decide), hv]
  rfl

/-- Membership in the scan result, inverse direction. -/
theorem summarize_mem_inv (cls : PyVal → Option SVal) (binds : List (String × PyVal))
    (n : String) (s : SVal) (hmem : (n, s) ∈ summarize cls binds) :
    ∃ v, (n, v) ∈ binds ∧ cls v = some s := by
  rw [summarize_eq_filterMap, List.mem_filterMap] at hmem
  obtain ⟨⟨m, v⟩, hv, hstep⟩ := hmem
  unfold summaryStep at hstep
  by_cases hc : (pyStartsWith (m, v).1 "_" || ignoreList.contains (m, v).1) = true
  · rw [if_pos hc] at hstep; exact absurd hstep (by simp)
  · rw [if_neg hc] at hstep
    cases hcls : cls v with
    | none => rw [hcls] at hstep; exact absurd hstep (by simp)
    | some s0 =>
        rw [hcls] at hstep
        have hpair : ((m, s0) : String × SVal) = (n, s) := by simpa using hstep
        injection hpair with hm hs
        subst hm
        subst hs
        exact ⟨v, hv, hcls⟩

/-- In an association list with pairwise-distinct keys (a Python dict), a
key determines its value. -/
theorem nodup_key_eq (binds : List (String × PyVal))
    (hnd : (binds.map Prod.fst).Nodup) (n : String) (v w : PyVal)
    (hv : (n, v) ∈ binds) (hw : (n, w) ∈ binds) : v = w := by
  induction binds with
  | nil => exact absurd hv (by simp)
  | cons p rest ih =>
      rw [List.map_cons, List.nodup_cons] at hnd
      rcases List.mem_cons.mp hv with rfl | hv2
      · rcases List.mem_cons.mp hw with h | hw2
        · exact (congrArg Prod.snd h).symm
        · exact absurd (List.mem_map.mpr ⟨(n, w), hw2, rfl⟩) hnd.1
      · rcases List.mem_cons.mp hw with rfl | hw2
        · exact absurd (List.mem_map.mpr ⟨(n, v), hv2, rfl⟩) hnd.1
        · exact ih hnd.2 hv2 hw2

/-- The row-count descriptor is never the empty marker (their first
characters differ). -/
theorem rowsDescr_ne_emptyMarker (k : Nat) : rowsDescr k ≠ emptyMarker := by
  intro h
  have hd := congrArg (fun s => s.data.head?) h
  simp only [rowsDescr, emptyMarker, String.data_append, List.head?_append] at hd
  rw [show "DataFrame/Series with ".data.head? = some 'D' from rfl] at hd
  rw [show "⚠️ Empty DataFrame/Series (0 rows)".data.head? = some '⚠' from rfl] at hd
  simp at hd

/-- The corrective-path classifier never produces the empty marker: its only
string outputs are row-count descriptors. -/
theorem classifyFix_no_marker (v : PyVal) (s : String)
    (h : classifyFix v = some (SVal.str s)) : s ≠ emptyMarker := by
  cases v with
  | classVal => exact absurd h (by simp [classifyFix])
  | scalar r t => exact absurd h (by simp [classifyFix])
  | frame k =>
      rw [classifyFix] at h
      obtain rfl : rowsDescr k = s := by
        have := Option.some_inj.mp h
        exact congrArg (fun x => match x with | SVal.str y => y | _ => s) this
      exact rowsDescr_ne_emptyMarker k
  | figure m => exact absurd h (by simp [classifyFix])
  | seq m =>
      rw [classifyFix] at h
      by_cases hm : m < 20
      · rw [if_pos hm] at h; exact absurd h (by simp)
      · rw [if_neg hm] at h; exact absurd h (by simp)
  | other t => exact absurd h (by simp [classifyFix])

/-- C4 (amended): after the initial successful execution, Summary Info maps
every zero-row DataFrame/Series binding (not underscored, not on the ignore
list) to the distinguished empty marker and — when the binding names are
distinct, as in a Python namespace — to nothing else; but the Summary Info
rebuilt after a reflection-triggered corrective re-execution maps such a
binding to the ordinary row-count descriptor "DataFrame/Series with 0 rows"
and contains no empty marker at all, because the rebuild omits the
`val.empty` check. -/
theorem summary_empty_marker (run : ProgSem) (reflResp code output : String)
    (binds : List (String × PyVal)) (figRegistry : List Nat) (df : Obj) (ctr : Nat)
    (n : String) (hn1 : pyStartsWith n "_" = false)
    (hn2 : ignoreList.contains n = false) :
    ((n, PyVal.frame 0) ∈ binds →
      (pyContains (pyStrip reflResp) "PASS" = true ∨
        pyContains (pyStrip reflResp) "```python" = false) →
      (n, SVal.str emptyMarker) ∈
        (check_logic_and_fix run reflResp code output binds figRegistry
          df ctr).summary ∧
      ((binds.map Prod.fst).Nodup → ∀ s,
        (n, s) ∈ (check_logic_and_fix run reflResp code output binds figRegistry
          df ctr).summary → s = SVal.str emptyMarker)) ∧
    (∀ out2 binds2 d2 f2,
      pyContains (pyStrip reflResp) "PASS" = false →
      pyContains (pyStrip reflResp) "```python" = true →
      run (extractPyCode (pyStrip reflResp)) df.val = .ok out2 binds2 d2 f2 →
      (n, PyVal.frame 0) ∈ binds2 →
      (n, SVal.str (rowsDescr 0)) ∈
        (check_logic_and_fix run reflResp code output binds figRegistry
          df ctr).summary ∧
      (∀ m s, (m, SVal.str s) ∈ (check_logic_and_fix run reflResp code output binds
        figRegistry df ctr).summary → s ≠ emptyMarker)) := by
  constructor
  · intro hb hcond
    have hsum : (check_logic_and_fix run reflResp code output binds figRegistry
        df ctr).summary = initialSummary binds figRegistry := by
      unfold check_logic_and_fix
      rcases hcond with hc | hc
      · rw [hc]; simp
      · rw [hc]; simp
    rw [hsum]
    constructor
    · exact List.mem_cons_of_mem _ (summarize_mem_of _ _ _ _ _ hb hn1 hn2 rfl)
    · intro hnd s hs
      rcases List.mem_cons.mp hs with h | h
      · exfalso
        have hfst : n = "_generated_figures_count" := congrArg Prod.fst h
        rw [hfst] at hn1
        exact absurd hn1 (by decide)
      · obtain ⟨v, hv, hcls⟩ := summarize_mem_inv _ _ _ _ h
        have hveq : v = PyVal.frame 0 := nodup_key_eq binds hnd n v _ hv hb
        rw [hveq] at hcls
        have hss : some s = some (SVal.str emptyMarker) := by rw [← hcls]; rfl
        exact Option.some_inj.mp hss
  · intro out2 binds2 d2 f2 h1 h2 hrun hb2
    have hsum : (check_logic_and_fix run reflResp code output binds figRegistry
        df ctr).summary = summarize classifyFix binds2 ++
        [("_generated_figures_count",
          SVal.nat (correctedFigures binds2 f2).length)] := by
      unfold check_logic_and_fix
      rw [h1, h2, hrun]
      exact rfl
    rw [hsum]
    constructor
    · exact List.mem_append_left _ (summarize_mem_of _ _ _ _ _ hb2 hn1 hn2 rfl)
    · intro m s hs
      rcases List.mem_append.mp hs with h | h
      · obtain ⟨v, hv, hcls⟩ := summarize_mem_inv _ _ _ _ h
        exact classifyFix_no_marker v s hcls
      · exfalso
        have hsingle := List.mem_singleton.mp h
        have hsnd : SVal.str s = SVal.nat (correctedFigures binds2 f2).length :=
          congrArg Prod.snd hsingle
        exact SVal.noConfusion hsnd

/-- A corrective run that binds a zero-row frame. -/
def c4Run : ProgSem := fun _ _ => .ok "" [("named_result", .frame 0)] [] []

/-- A non-PASS reflection response carrying a fenced corrected program. -/
def c4Resp : String := "flawed ```python\nfixed = df.head(0)\n```"

/-- C4, counterexample: after the reflection-triggered corrective
re-execution binds a zero-row frame, the rebuilt Summary Info maps it to the
ordinary row-count descriptor "DataFrame/Series with 0 rows", not to the
distinguished empty marker. -/
theorem summary_empty_marker_counterexample :
    (check_logic_and_fix c4Run c4Resp "orig" "out" [] [] dfA 1).summary =
      [("named_result", SVal.str "DataFrame/Series with 0 rows"),
        ("_generated_figures_count", SVal.nat 0)] ∧
    ("named_result", SVal.str emptyMarker) ∉
      (check_logic_and_fix c4Run c4Resp "orig" "out" [] [] dfA 1).summary :=
  ⟨by decide, by decide⟩

/-- C4, witness: the amended statement evaluated on the concrete corrective
run that produced the counterexample. -/
theorem summary_empty_marker_witness :
    ("named_result", SVal.str (rowsDescr 0)) ∈
      (check_logic_and_fix c4Run c4Resp "orig" "out" [] [] dfA 1).summary ∧
    (∀ m s, (m, SVal.str s) ∈
      (check_logic_and_fix c4Run c4Resp "orig" "out" [] [] dfA 1).summary →
      s ≠ emptyMarker) :=
  (summary_empty_marker c4Run c4Resp "orig" "out" [] [] dfA 1 "named_result"
      (by decide) (by decide)).2
    "" [("named_result", .frame 0)] [] [] (by decide) (by decide) rfl (by decide)

/-! ## Schema Selector -/

/-- C3: the Schema Selector's output consists of the texts of exactly those
corpus descriptors that are classified core, or classified spatial with the
spatial tag present, or classified score with the score tag present — and it
is a pure function: identical `(topicTags, corpus)` inputs yield identical
output.  (Spec-modelled; see `get_filtered_schema_string`.) -/
theorem schema_selector_filter (classify : Descriptor → Topic)
    (topicTags : List String) (corpus : List Descriptor) :
    get_filtered_schema_string classify topicTags corpus =
      String.intercalate "\n"
        ((corpus.filter fun d =>
          decide (classify d = .core ∨
            (classify d = .spatial ∧ "spatial" ∈ topicTags) ∨
            (classify d = .scoreT ∧ "score" ∈ topicTags))).map Descriptor.text) ∧
    (∀ (tags2 : List String) (corpus2 : List Descriptor),
      topicTags = tags2 → corpus = corpus2 →
      get_filtered_schema_string classify topicTags corpus =
        get_filtered_schema_string classify tags2 corpus2) := by
  constructor
  · unfold get_filtered_schema_string
    congr 1
    have hfun : (fun d => decide (classify d = .core ∨
        (classify d = .spatial ∧ "spatial" ∈ topicTags) ∨
        (classify d = .scoreT ∧ "score" ∈ topicTags))) =
        keepDescriptor classify topicTags := by
      funext d
      unfold keepDescriptor
      cases hc : classify d <;>
        simp [hc, show ∀ (l : List String) (a : String), l.contains a = true ↔ a ∈ l
          from fun l a => List.elem_iff]
    rw [hfun]
    induction corpus with
    | nil => rfl
    | cons d rest ih =>
        rw [filteredTexts, List.filter_cons]
        by_cases hk : keepDescriptor classify topicTags d = true
        · rw [if_pos hk, if_pos hk, List.map_cons, ih]
        · rw [if_neg hk, if_neg hk, ih]
  · intro tags2 corpus2 ht hc
    rw [ht, hc]

/-- A concrete substring-based classifier for the witness. -/
def classifyByName : Descriptor → Topic := fun d =>
  if pyContains d.name "_x" then .spatial
  else if pyContains d.name "score" then .scoreT
  else .core

/-- A tiny concrete corpus for the witness. -/
def corpusA : List Descriptor :=
  [⟨"rally", "rally: rally number"⟩, ⟨"landing_x", "landing_x: x coordinate"⟩,
    ⟨"win_score", "win_score: points"⟩]

/-- C3, witness: the filter characterization and purity evaluated on a
concrete classifier, tag list and corpus. -/
theorem schema_selector_filter_witness :
    get_filtered_schema_string classifyByName ["spatial"] corpusA =
      String.intercalate "\n"
        ((corpusA.filter fun d =>
          decide (classifyByName d = .core ∨
            (classifyByName d = .spatial ∧ "spatial" ∈ (["spatial"] : List String)) ∨
            (classifyByName d = .scoreT ∧ "score" ∈ (["spatial"] : List String)))).map
          Descriptor.text) ∧
    get_filtered_schema_string classifyByName ["spatial"] corpusA =
      get_filtered_schema_string classifyByName ["spatial"] corpusA :=
  ⟨(schema_selector_filter classifyByName ["spatial"] corpusA).1,
    (schema_selector_filter classifyByName ["spatial"] corpusA).2 ["spatial"] corpusA
      rfl rfl⟩

/-! ## Clarification Gate -/

/-- C7: if the clarification feature is disabled, or the question already
carries the supplement marker of a resumed clarification, the gate returns
CLEAR (no payload) and makes zero reasoning-service calls. -/
theorem clarification_gate_short_circuit (jloads : String → Option ClarifData)
    (resp prompt : String) (enable : Bool)
    (h : enable = false ∨ pyContains prompt "補充說明:" = true) :
    check_clarification jloads resp prompt enable = (none, 0) := by
  rcases h with h | h
  · subst h
    rfl
  · unfold check_clarification
    rw [h]
    cases enable <;> simp

/-- C7, witness: the short circuit on a resumed question with the feature
enabled, and on a disabled gate. -/
theorem clarification_gate_short_circuit_witness :
    check_clarification (fun _ => none) "resp" "誰赢 補充說明: 選項一" true = (none, 0) ∧
    check_clarification (fun _ => none) "resp" "誰赢" false = (none, 0) :=
  ⟨clarification_gate_short_circuit (fun _ => none) "resp" "誰赢 補充說明: 選項一" true
      (Or.inr (by decide)),
    clarification_gate_short_circuit (fun _ => none) "resp" "誰赢" false
      (Or.inl rfl)⟩

/-! ## Prompt Enhancer -/

/-- A structured parse that always fails. -/
def jloadsFail : String → Option EnhParsed := fun _ => none

/-- C8, counterexample: when the structured parse of the model response
fails, the enhancer echoes the model's raw response as the enhanced
question, not the raw user question as the claim states. -/
theorem enhancer_echo_counterexample :
    (enhance_prompt jloadsFail "NOT JSON" "hi").1 = "NOT JSON" ∧
    (enhance_prompt jloadsFail "NOT JSON" "hi").1 ≠ "hi" :=
  ⟨by decide, by decide⟩

/-- C8 (amended): the Prompt Enhancer is a total function returning a
`(enhancedQuestion, topicTags, needsDomainReference)` triple; for every
model response whose structured parse fails, it echoes the stripped raw
response as the enhanced question and falls back to keyword heuristics over
the raw question, always yielding a non-empty subset of the fixed tag
vocabulary and defaulting to the full tag set (both spatial and score) when
no keyword matches. -/
theorem enhancer_parse_fallback (jloads : String → Option EnhParsed)
    (resp prompt : String)
    (h : jloads (extractJsonBlockEnh (pyStrip resp)) = none) :
    (enhance_prompt jloads resp prompt).1 = pyStrip resp ∧
    ((spatialKeywords.any fun k => pyContains prompt k) = false →
      (scoreKeywords.any fun k => pyContains prompt k) = false →
      (enhance_prompt jloads resp prompt).2.1 = ["spatial", "score"]) ∧
    ((enhance_prompt jloads resp prompt).2.1 = ["spatial"] ∨
      (enhance_prompt jloads resp prompt).2.1 = ["score"] ∨
      (enhance_prompt jloads resp prompt).2.1 = ["spatial", "score"]) := by
  simp only [enhance_prompt]
  rw [h]
  cases h1 : spatialKeywords.any fun k => pyContains prompt k <;>
    cases h2 : scoreKeywords.any fun k => pyContains prompt k <;>
      simp [h1, h2]

/-- C8, witness: the fallback evaluated on a concrete unparseable response. -/
theorem enhancer_parse_fallback_witness :
    (enhance_prompt jloadsFail "NOT JSON" "hi").1 = pyStrip "NOT JSON" ∧
    (enhance_prompt jloadsFail "NOT JSON" "hi").2.1 = ["spatial", "score"] :=
  have h := enhancer_parse_fallback jloadsFail "NOT JSON" "hi" rfl
  ⟨h.1, h.2.1 (by decide) (by decide)⟩

/-! ## Conversation-history window -/

/-- The backward scan is the content filter restricted to the
largest tracked suffix (in reversed order). -/
theorem historyScan_eq (l : List SMsg) :
    historyScan l = ((l.takeWhile smTracked).filter smKeep).map toChat := by
  induction l with
  | nil => rfl
  | cons m rest ih =>
      rw [historyScan, List.takeWhile_cons]
      by_cases ht : smTracked m = true
      · rw [if_neg (by rw [ht]; decide), if_pos ht, List.filter_cons]
        by_cases hk : smKeep m = true
        · rw [if_pos hk, if_pos hk, List.map_cons, ih]
        · rw [if_neg hk, if_neg hk, ih]
      · have ht2 : smTracked m = false := by
          revert ht; cases smTracked m <;> simp
        rw [if_pos (by rw [ht2]; decide), if_neg ht]
        rfl

/-- The chronological valid history equals the content filter of the
messages after the tracking boundary, projected to chat messages. -/
theorem validHistory_eq (msgs : List SMsg) :
    (historyScan msgs.dropLast.reverse).reverse
      = ((afterTrackingBoundary msgs.dropLast).filter smKeep).map toChat := by
  rw [historyScan_eq, afterTrackingBoundary]
  rw [← List.map_reverse, ← List.filter_reverse]

/-- C9: the history portion of the code-generation conversation holds at
most the last 4 exchanges (8 messages), contains no clarification message
(none whose content carries the 🤔 marker), and is a sublist of the
projections of the prior messages strictly after the most recent untracked
message — the backward scan stops there. -/
theorem history_window (useHistory : Bool) (msgs : List SMsg) :
    (recentHistory useHistory msgs).length ≤ 8 ∧
    (recentHistory useHistory msgs).all
      (fun m => !(pyContains m.content "🤔")) = true ∧
    List.Sublist (recentHistory useHistory msgs)
      ((afterTrackingBoundary msgs.dropLast).map toChat) := by
  unfold recentHistory
  split
  · rw [validHistory_eq]
    refine ⟨?_, ?_, ?_⟩
    · unfold lastSlice
      rw [List.length_drop]
      omega
    · rw [List.all_eq_true]
      intro c hc
      have hsub : List.Sublist
          (lastSlice 8 (((afterTrackingBoundary msgs.dropLast).filter smKeep).map toChat))
          (((afterTrackingBoundary msgs.dropLast).filter smKeep).map toChat) :=
        List.drop_sublist _ _
      have hc2 := hsub.mem hc
      obtain ⟨m, hm, rfl⟩ := List.mem_map.mp hc2
      have hkeep : smKeep m = true := (List.mem_filter.mp hm).2
      unfold smKeep at hkeep
      have := (Bool.and_eq_true _ _).mp hkeep
      simpa [toChat] using this.2
    · exact List.Sublist.trans (List.drop_sublist _ _)
        (List.Sublist.map toChat (List.filter_sublist _))
  · exact ⟨Nat.zero_le _, rfl, List.nil_sublist _⟩

/-! ## Chat handler for clarification replies -/

/-- A session awaiting clarification with two offered options. -/
def sAwait : SessionSt := ⟨true, some ⟨true, "which player", ["甲", "乙"]⟩, "P", []⟩

/-- C10, counterexample: the reply " 2 " is not a digit string, so by the
claim it should be merged verbatim; the handler instead strips it first and
substitutes option 2. -/
theorem chat_reply_counterexample :
    (handle_chat_prompt false sAwait " 2 ").1 = "P\n補充說明: 乙" ∧
    (handle_chat_prompt false sAwait " 2 ").1 ≠ "P\n補充說明:  2 " :=
  ⟨by decide, by decide⟩

/-- C10 (amended): while awaiting clarification the handler dispatches on
the whitespace-stripped reply: if the stripped reply is a digit string whose
1-based number is within the offered options it is replaced by that option's
text before the supplement merge; every other stripped reply (non-digit or
out-of-range digit) is merged as stripped; and in all cases the
awaiting-clarification flag and the payload are cleared. -/
theorem chat_reply_resolution (useHistory : Bool) (s : SessionSt) (prompt : String)
    (d : ClarifData) (hA : s.awaiting = true) (hD : s.clarifData = some d) :
    (pyIsDigit (pyStrip prompt) = true → 1 ≤ pyToNat (pyStrip prompt) →
      pyToNat (pyStrip prompt) ≤ d.options.length →
      (handle_chat_prompt useHistory s prompt).1 =
        supplementMerge s.originalPrompt
          (d.options.getD (pyToNat (pyStrip prompt) - 1) "")) ∧
    (pyIsDigit (pyStrip prompt) = false →
      (handle_chat_prompt useHistory s prompt).1 =
        supplementMerge s.originalPrompt (pyStrip prompt)) ∧
    (pyIsDigit (pyStrip prompt) = true →
      (pyToNat (pyStrip prompt) = 0 ∨ d.options.length < pyToNat (pyStrip prompt)) →
      (handle_chat_prompt useHistory s prompt).1 =
        supplementMerge s.originalPrompt (pyStrip prompt)) ∧
    (handle_chat_prompt useHistory s prompt).2.awaiting = false ∧
    (handle_chat_prompt useHistory s prompt).2.clarifData = none := by
  unfold handle_chat_prompt
  rw [hA, if_pos rfl]
  refine ⟨?_, ?_, ?_, rfl, rfl⟩
  · intro h1 h2 h3
    rw [hD]
    simp only [resolveAnswer]
    rw [if_pos h1]
    rw [if_pos (by constructor <;> omega)]
    have hidx : ((pyToNat (pyStrip prompt) : Int) - 1).toNat
        = pyToNat (pyStrip prompt) - 1 := by omega
    rw [hidx]
  · intro h1
    rw [hD]
    simp only [resolveAnswer]
    rw [if_neg (by simp [h1])]
  · intro h1 h2
    rw [hD]
    simp only [resolveAnswer]
    rw [if_pos h1]
    rw [if_neg (by rintro ⟨ha, hb⟩; rcases h2 with h | h <;> omega)]

/-- C10, witness: the amended dispatch evaluated on an in-range digit reply. -/
theorem chat_reply_resolution_witness :
    (handle_chat_prompt false sAwait "2").1 =
      supplementMerge sAwait.originalPrompt
        ((⟨true, "which player", ["甲", "乙"]⟩ : ClarifData).options.getD
          (pyToNat (pyStrip "2") - 1) "") ∧
    (handle_chat_prompt false sAwait "2").2.awaiting = false ∧
    (handle_chat_prompt false sAwait "2").2.clarifData = none :=
  have h := chat_reply_resolution false sAwait "2" ⟨true, "which player", ["甲", "乙"]⟩
    rfl rfl
  ⟨h.1 (by decide) (by decide) (by decide), h.2.2.2.1, h.2.2.2.2⟩

end BadmintonAI
